import Mathlib

set_option maxRecDepth 65536

/-!
# Verification of the financial-analysis dashboard (`src/python.py`)

Shallow embedding of the core logic of the application:

* `process_financial_data` (growth % and composition % over a two-period table,
  lines 16–46 of the source),
* the current-ratio block (lines 170–205),
* the chat context builder and error translation of `get_chat_response`
  (lines 75–122) and `get_ai_analysis` (lines 49–72),
* the upload/error session-state transition (lines 145–284).

Numbers are modelled as rationals (`ℚ`); the Python floats `1e-9` etc. become the
exact rationals they denote.  Strings are Lean `String`s; pandas'
case-insensitive substring match (`str.contains(..., case=False)`) is modelled
with an explicit character-list search after `toLower` (ASCII case folding,
which is the identity on the upper-case Vietnamese pattern letters; matching is
exact on the non-ASCII characters, which is all the development relies on).
-/

/-- One input row after the numeric coercion of lines 20–22 of the source
(`pd.to_numeric(..., errors='coerce').fillna(0)`): a label (`Chỉ tiêu`) and the
two period values (`Năm trước` = prior, `Năm sau` = current). -/
structure Row where
  chiTieu : String
  namTruoc : ℚ
  namSau : ℚ
deriving DecidableEq, Repr

/-- A row of the processed table: the input columns plus the three derived
columns added by `process_financial_data` (lines 25–44). -/
structure EnrichedRow where
  chiTieu : String
  namTruoc : ℚ
  namSau : ℚ
  /-- `Tốc độ tăng trưởng (%)` (line 25) -/
  tocDoTangTruong : ℚ
  /-- `Tỷ trọng Năm trước (%)` (line 43) -/
  tyTrongNamTruoc : ℚ
  /-- `Tỷ trọng Năm sau (%)` (line 44) -/
  tyTrongNamSau : ℚ
deriving DecidableEq, Repr

/-- The guard constant `1e-9` used for zero divisors. -/
def eps : ℚ := 1 / 1000000000

/-- Boolean test that `p` occurs at the head of `l`. -/
def isLeadOf : List Char → List Char → Bool
  | [], _ => true
  | _ :: _, [] => false
  | p :: ps, c :: cs => p == c && isLeadOf ps cs

/-- Boolean test that `pat` occurs contiguously somewhere in the list. -/
def isPartOf (pat : List Char) : List Char → Bool
  | [] => isLeadOf pat []
  | c :: cs => isLeadOf pat (c :: cs) || isPartOf pat cs

/-- The character list of a string with ASCII case folding applied
characterwise (models `str.lower()`; the folding is the identity on the
non-ASCII Vietnamese letters of the matching patterns, so matching on those is
exact). -/
def lowerData (s : String) : List Char := s.data.map Char.toLower

/-- Models `Series.str.contains(pat, case=False, na=False)`: case-insensitive
substring containment of `pat` in `s`. -/
def containsCI (s pat : String) : Bool :=
  isPartOf (lowerData pat) (lowerData s)

/-- Model of the lookup `df[df[...].str.contains(pat, case=False, na=False)]`
followed by `.iloc[0]`: the first row (in source order) whose label contains
`pat`. -/
def findRow (pat : String) (rows : List Row) : Option Row :=
  rows.find? fun r => containsCI r.chiTieu pat

/-- Growth divisor of line 26: `df['Năm trước'].replace(0, 1e-9)`. -/
def growthDivisor (x : ℚ) : ℚ := if x = 0 then eps else x

/-- Share divisor of lines 39–40: `tong if tong != 0 else 1e-9`. -/
def shareDivisor (x : ℚ) : ℚ := if x ≠ 0 then x else eps

/-- The three derived columns for one row, given the two (already guarded)
total-assets denominators (lines 25–27 and 43–44). -/
def enrichRow (divisorN1 divisorN : ℚ) (r : Row) : EnrichedRow :=
  { chiTieu := r.chiTieu
    namTruoc := r.namTruoc
    namSau := r.namSau
    tocDoTangTruong := (r.namSau - r.namTruoc) / growthDivisor r.namTruoc * 100
    tyTrongNamTruoc := r.namTruoc / divisorN1 * 100
    tyTrongNamSau := r.namSau / divisorN * 100 }

/-- Error message raised at line 33 of the source. -/
def errTotal : String := "Không tìm thấy chỉ tiêu \x27TỔNG CỘNG TÀI SẢN\x27."

/-- Model of `process_financial_data` (lines 16–46): adds the growth column, locates the
first `TỔNG CỘNG TÀI SẢN` row, raises `ValueError` when none exists, otherwise
adds the two share columns using that row's period values (guarded by `eps`) as
denominators.  The raised `ValueError` is modelled as `Except.error`. -/
def process_financial_data (rows : List Row) : Except String (List EnrichedRow) :=
  match findRow "TỔNG CỘNG TÀI SẢN" rows with
  | none => .error errTotal
  | some t =>
      .ok (rows.map (enrichRow (shareDivisor t.namTruoc) (shareDivisor t.namSau)))

/-- A displayed financial metric: either a computed number or the string
`"N/A"` (the initial value of `thanh_toan_hien_hanh_N` etc., lines 170–172). -/
inductive Metric where
  | na : Metric
  | val : ℚ → Metric
deriving DecidableEq, Repr

/-- The liquidity-ratio triple of lines 170–187: prior-period ratio,
current-period ratio and their difference. -/
structure CurrentRatioPair where
  priorRatio : Metric
  currentRatio : Metric
  delta : Metric
deriving DecidableEq, Repr

/-- Row lookup on the processed table (same `str.contains(..., case=False)`
plus `.iloc[0]` as `findRow`, lines 176–181). -/
def findRowE (pat : String) (rows : List EnrichedRow) : Option EnrichedRow :=
  rows.find? fun r => containsCI r.chiTieu pat

/-- The current-ratio block, lines 170–187 of the source: look up the first
`TÀI SẢN NGẮN HẠN` (current assets) and `NỢ NGẮN HẠN` (current liabilities)
rows; a missing row raises `IndexError`, caught at line 202, leaving all three
values `"N/A"`.  Line 184 computes the two ratios and the delta only when BOTH
liability values are nonzero (`no_ngan_han_N != 0 and no_ngan_han_N_1 != 0`). -/
def computeCurrentRatio (rows : List EnrichedRow) : CurrentRatioPair :=
  match findRowE "TÀI SẢN NGẮN HẠN" rows, findRowE "NỢ NGẮN HẠN" rows with
  | some tsnh, some no =>
      if no.namSau ≠ 0 ∧ no.namTruoc ≠ 0 then
        { priorRatio := .val (tsnh.namTruoc / no.namTruoc)
          currentRatio := .val (tsnh.namSau / no.namSau)
          delta := .val (tsnh.namSau / no.namSau - tsnh.namTruoc / no.namTruoc) }
      else { priorRatio := .na, currentRatio := .na, delta := .na }
  | _, _ => { priorRatio := .na, currentRatio := .na, delta := .na }

/-- One chat turn of `st.session_state.messages`: a dict with a `role` key and
a `content` key. -/
structure Msg where
  role : String
  content : String
deriving DecidableEq, Repr

/-- One outbound message of the `contents` list sent to the model: a dict with
a `role` key and a single-element `parts` list holding the `text` (line 104 and
line 110); the single text is modelled directly. -/
structure GMsg where
  role : String
  text : String
deriving DecidableEq, Repr

/-- The first reserved bootstrap placeholder test string of line 103
(`"Vui lòng tải file Excel"`). -/
def placeholderLead1 : String := "Vui lòng tải file Excel"

/-- The second reserved bootstrap placeholder test string of line 103
(`"Dữ liệu đã được tải lên"`). -/
def placeholderLead2 : String := "Dữ liệu đã được tải lên"

/-- The full content of the initial "please upload a file" assistant turn
(line 127). -/
def placeholderUpload : String :=
  "Vui lòng tải file Excel để bắt đầu phân tích và trò chuyện."

/-- The full content of the "file uploaded successfully" assistant turn
(line 245). -/
def placeholderUploaded : String :=
  "Dữ liệu đã được tải lên thành công! Hãy đặt câu hỏi đầu tiên của bạn."

/-- Models Python's `str.startswith(pre)`: character-level prefix test. -/
def startsWithCh (s pre : String) : Bool := isLeadOf pre.data s.data

/-- Line 103: a history turn is skipped when its content starts with either
reserved placeholder string. -/
def isPlaceholder (content : String) : Bool :=
  startsWithCh content placeholderLead1 || startsWithCh content placeholderLead2

/-- Lines 95–100: map the UI role onto the Gemini role (`assistant → model`);
any other role yields `none` and the turn is dropped. -/
def roleOf (role : String) : Option String :=
  if role = "user" then some "user"
  else if role = "assistant" then some "model"
  else none

/-- The history-mapping loop of lines 94–104: keep a turn only when its role is
valid and its content is not a bootstrap placeholder. -/
def mapHistory : List Msg → List GMsg
  | [] => []
  | m :: ms =>
      match roleOf m.role with
      | some g =>
          if isPlaceholder m.content then mapHistory ms
          else ⟨g, m.content⟩ :: mapHistory ms
      | none => mapHistory ms

/-- The fixed text of `context_prefix` (lines 82–87) before the interpolated
`context_data`. -/
def contextLead : String :=
  "Bạn là một chuyên gia phân tích tài chính. Hãy trả lời các câu hỏi của người dùng dựa trên dữ liệu tài chính đính kèm sau đây (chỉ dùng dữ liệu này để trả lời): \n\n--- DỮ LIỆU TÀI CHÍNH CƠ SỞ ---\n"

/-- The fixed text of `context_prefix` (lines 85–86) after the interpolated
`context_data`. -/
def contextTail : String :=
  "\n---------------------------\nBây giờ, hãy trả lời câu hỏi sau của người dùng: "

/-- Model of `context_prefix` (lines 82–87): the fixed instruction header with the
grounding `context_data` interpolated in the middle. -/
def context_header (contextData : String) : String :=
  contextLead ++ contextData ++ contextTail

/-- The `contents` list built by `get_chat_response` (lines 89–110): the mapped
chat history without its last element (`st.session_state.messages[:-1]`, the
pending prompt appended at line 254), followed by the single combined trailing
user turn `context_prefix + prompt` (lines 108–110). -/
def get_chat_response_contents (messages : List Msg) (prompt contextData : String) :
    List GMsg :=
  mapHistory messages.dropLast ++ [⟨"user", context_header contextData ++ prompt⟩]

/-- Outcome of the external `client.models.generate_content` call (and of the
surrounding request construction): a successful response text, a raised
`APIError`, or any other raised exception, each carrying its rendered message. -/
inductive ApiOutcome where
  | success : String → ApiOutcome
  | apiError : String → ApiOutcome
  | otherError : String → ApiOutcome
deriving DecidableEq, Repr

/-- Model of `get_ai_analysis` (lines 49–72) as a function of the call outcome: the
whole body sits inside `try`, the `except APIError` arm (lines 68–70) and the
`except Exception` arm (lines 71–72) each return a diagnostic string. -/
def get_ai_analysis : ApiOutcome → String
  | .success t => t
  | .apiError e =>
      "Lỗi gọi Gemini API: Vui lòng kiểm tra Khóa API hoặc giới hạn sử dụng. Chi tiết lỗi: " ++ e
  | .otherError e => "Đã xảy ra lỗi không xác định: " ++ e

/-- Model of `get_chat_response` (lines 75–122) as a function of the call outcome: the
`except APIError` arm (lines 119–120) and the `except Exception` arm
(lines 121–122) each return a diagnostic string. -/
def get_chat_response : ApiOutcome → String
  | .success t => t
  | .apiError e =>
      "Lỗi API: Vui lòng kiểm tra Khóa API hoặc vai trò (roles) trong lịch sử chat. Chi tiết lỗi: " ++ e
  | .otherError e => "Lỗi không xác định khi chat: " ++ e

/-- The session state owned by the chat feature: `st.session_state.messages`
and `st.session_state.financial_data_context` (lines 126–130). -/
structure SessionState where
  messages : List Msg
  financial_data_context : Option String
deriving DecidableEq, Repr

/-- Lines 244–245: replace the single initial "please upload" turn by the
"uploaded successfully" turn; any other history is left untouched. -/
def resetMessagesIfFresh : List Msg → List Msg
  | [m] =>
      if startsWithCh m.content "Vui lòng tải file" then [⟨"assistant", placeholderUploaded⟩]
      else [m]
  | ms => ms

/-- The processing pass for an uploaded table (lines 145–284), restricted to
its computation and state effects: on success the context is regenerated from
the processed table (lines 208–222, serialization abstracted by the `serialize`
parameter) and the history placeholder is swapped (lines 244–245); a
`ValueError` raised by `process_financial_data` is caught at lines 277–280,
which reset the history to one fresh assistant turn and clear the cached
context to `None`.  The first component is the table that gets rendered
(`None` when the pass aborted). -/
def processUpload (serialize : List EnrichedRow → CurrentRatioPair → String)
    (rows : List Row) (s : SessionState) :
    Option (List EnrichedRow) × SessionState :=
  match process_financial_data rows with
  | .error e =>
      (none,
        { messages := [⟨"assistant", "Lỗi dữ liệu. Vui lòng tải file mới: " ++ e⟩]
          financial_data_context := none })
  | .ok out =>
      (some out,
        { messages := resetMessagesIfFresh s.messages
          financial_data_context := some (serialize out (computeCurrentRatio out)) })

/-! ## Claims -/

/-- Input used to refute C1: all three special rows present, prior liability
nonzero (25) and current liability exactly 0. -/
def rowsC1 : List Row :=
  [⟨"TỔNG CỘNG TÀI SẢN", 100, 200⟩, ⟨"TÀI SẢN NGẮN HẠN", 50, 80⟩,
   ⟨"NỢ NGẮN HẠN", 25, 0⟩]

/-- C1 is false on the code: with the Current-Assets and Current-Liabilities
rows present, prior liability 25 ≠ 0 and current liability 0, the guard at
line 184 (`no_ngan_han_N != 0 and no_ngan_han_N_1 != 0`) skips BOTH ratios, so
`priorRatio` is `N/A`, not the number 50/25 the claim requires. -/
theorem C1_counterexample :
    (process_financial_data rowsC1).toOption.map (fun out =>
        ((findRowE "NỢ NGẮN HẠN" out).map fun r => (r.namTruoc, r.namSau),
         computeCurrentRatio out)) =
      some (some ((25:ℚ), (0:ℚ)),
        ⟨Metric.na, Metric.na, Metric.na⟩) := by decide

/-- C1 (amended): the two periods are NOT treated independently.  If the
Current-Assets and Current-Liabilities rows are present and the current
period's liability value is exactly 0 while the prior period's liability value
is nonzero, then `priorRatio`, `currentRatio` and `delta` are ALL
`NotAvailable` — the guard of line 184 computes the ratios only when both
periods' liability values are nonzero. -/
theorem C1_both_na_when_current_liability_zero (rows : List EnrichedRow)
    (tsnh no : EnrichedRow)
    (hts : findRowE "TÀI SẢN NGẮN HẠN" rows = some tsnh)
    (hno : findRowE "NỢ NGẮN HẠN" rows = some no)
    (hcur : no.namSau = 0) (hprior : no.namTruoc ≠ 0) :
    computeCurrentRatio rows = ⟨Metric.na, Metric.na, Metric.na⟩ := by
  unfold computeCurrentRatio
  rw [hts, hno]
  simp [hcur]

/-- Witness for `C1_both_na_when_current_liability_zero` at a concrete table. -/
theorem C1_witness :
    computeCurrentRatio
        [⟨"TÀI SẢN NGẮN HẠN", 50, 80, 0, 0, 0⟩, ⟨"NỢ NGẮN HẠN", 25, 0, 0, 0, 0⟩] =
      ⟨Metric.na, Metric.na, Metric.na⟩ :=
  C1_both_na_when_current_liability_zero
    [⟨"TÀI SẢN NGẮN HẠN", 50, 80, 0, 0, 0⟩, ⟨"NỢ NGẮN HẠN", 25, 0, 0, 0, 0⟩]
    ⟨"TÀI SẢN NGẮN HẠN", 50, 80, 0, 0, 0⟩ ⟨"NỢ NGẮN HẠN", 25, 0, 0, 0, 0⟩
    (by decide) (by decide) (by decide) (by decide)

/-- C2: when no row's label case-insensitively contains `TỔNG CỘNG TÀI SẢN`,
`process_financial_data` raises the `ValueError` of line 33 (no enriched table
is produced), and the handler of lines 277–280 resets the chat history to a
single fresh assistant turn and clears the cached context to `None`. -/
theorem C2_missing_total_assets_resets_state
    (serialize : List EnrichedRow → CurrentRatioPair → String)
    (rows : List Row) (s : SessionState)
    (h : ∀ r ∈ rows, containsCI r.chiTieu "TỔNG CỘNG TÀI SẢN" = false) :
    process_financial_data rows = .error errTotal ∧
    processUpload serialize rows s =
      (none,
        { messages := [⟨"assistant", "Lỗi dữ liệu. Vui lòng tải file mới: " ++ errTotal⟩]
          financial_data_context := none }) := by
  have hf : findRow "TỔNG CỘNG TÀI SẢN" rows = none := by
    apply List.find?_eq_none.mpr
    intro r hr
    simp [h r hr]
  have hp : process_financial_data rows = .error errTotal := by
    unfold process_financial_data
    rw [hf]
  refine ⟨hp, ?_⟩
  unfold processUpload
  rw [hp]

/-- Witness for `C2_missing_total_assets_resets_state` at a concrete table and
session state. -/
theorem C2_witness :
    process_financial_data [⟨"DOANH THU THUẦN", 1, 2⟩] = .error errTotal ∧
    processUpload (fun _ _ => "")
        [⟨"DOANH THU THUẦN", 1, 2⟩]
        ⟨[⟨"user", "câu hỏi cũ"⟩, ⟨"assistant", "trả lời cũ"⟩], some "ngữ cảnh cũ"⟩ =
      (none,
        ⟨[⟨"assistant", "Lỗi dữ liệu. Vui lòng tải file mới: " ++ errTotal⟩], none⟩) :=
  C2_missing_total_assets_resets_state (fun _ _ => "")
    [⟨"DOANH THU THUẦN", 1, 2⟩]
    ⟨[⟨"user", "câu hỏi cũ"⟩, ⟨"assistant", "trả lời cũ"⟩], some "ngữ cảnh cũ"⟩
    (by decide)

/-- C3: with session history `[user:"a", assistant:"b"]` (neither content a
placeholder) and the pending user prompt `"c"` appended as the last history
element (line 254), the outbound `contents` list is exactly
the turns `user:"a"`, `model:"b"`, `user: header + context + "c"` — the grounding
context is fused into the single trailing user turn and no separate turn is
appended for the new prompt. -/
theorem C3_context_assembly (a b c ctx : String)
    (ha1 : startsWithCh a placeholderLead1 = false)
    (ha2 : startsWithCh a placeholderLead2 = false)
    (hb1 : startsWithCh b placeholderLead1 = false)
    (hb2 : startsWithCh b placeholderLead2 = false) :
    get_chat_response_contents
        [⟨"user", a⟩, ⟨"assistant", b⟩, ⟨"user", c⟩] c ctx =
      [⟨"user", a⟩, ⟨"model", b⟩, ⟨"user", context_header ctx ++ c⟩] := by
  simp [get_chat_response_contents, mapHistory, roleOf, isPlaceholder,
    ha1, ha2, hb1, hb2, List.dropLast]

/-- Witness for `C3_context_assembly` at concrete strings. -/
theorem C3_witness :
    get_chat_response_contents
        [⟨"user", "a"⟩, ⟨"assistant", "b"⟩, ⟨"user", "c"⟩] "c" "ctx" =
      [⟨"user", "a"⟩, ⟨"model", "b"⟩, ⟨"user", context_header "ctx" ++ "c"⟩] :=
  C3_context_assembly "a" "b" "c" "ctx" (by decide) (by decide) (by decide) (by decide)

/-- Characterization of a successful processing pass: some Total-Assets row was
found and every row was enriched with that row's guarded values as share
denominators. -/
theorem process_ok (rows : List Row) (out : List EnrichedRow)
    (hp : process_financial_data rows = .ok out) :
    ∃ t, findRow "TỔNG CỘNG TÀI SẢN" rows = some t ∧
      out = rows.map (enrichRow (shareDivisor t.namTruoc) (shareDivisor t.namSau)) := by
  unfold process_financial_data at hp
  cases hf : findRow "TỔNG CỘNG TÀI SẢN" rows with
  | none => rw [hf] at hp; cases hp
  | some t =>
      rw [hf] at hp
      exact ⟨t, rfl, (Except.ok.inj hp).symm⟩

theorem eps_ne_zero : eps ≠ 0 := by norm_num [eps]

theorem growthDivisor_ne_zero (x : ℚ) : growthDivisor x ≠ 0 := by
  unfold growthDivisor
  split
  · exact eps_ne_zero
  · assumption

theorem shareDivisor_ne_zero (x : ℚ) : shareDivisor x ≠ 0 := by
  unfold shareDivisor
  split
  · assumption
  · exact eps_ne_zero

theorem share_of_self (x : ℚ) (h : x ≠ 0) : x / shareDivisor x * 100 = 100 := by
  unfold shareDivisor
  rw [if_pos h, div_self h, one_mul]

/-- C4 is false as stated: an input whose Total-Assets row has prior value 0 is
accepted, but that row's prior share percentage is 0/ε·100 = 0 %, not 100 %. -/
theorem C4_counterexample :
    (process_financial_data [⟨"TỔNG CỘNG TÀI SẢN", 0, 200⟩]).toOption.map
        (fun out => out.map fun er => er.tyTrongNamTruoc) = some [0] ∧
      (0:ℚ) ≠ 100 := by
  constructor
  · have h : process_financial_data [⟨"TỔNG CỘNG TÀI SẢN", 0, 200⟩] =
        .ok [enrichRow (shareDivisor 0) (shareDivisor 200)
              ⟨"TỔNG CỘNG TÀI SẢN", 0, 200⟩] := rfl
    rw [h]
    simp [enrichRow, Except.toOption]
  · norm_num

/-- C4 (amended): whenever the input contains a Total-Assets row and that
(first matching) row's prior and current values are nonzero, the enriched
Total-Assets row's share percentages both equal exactly 100 %, the same uniform
share formula being applied to it as to every other row.  (When one of its
values is 0 the corresponding share reads 0 %, not ~100 %.) -/
theorem C4_total_assets_share_100 (rows : List Row) (t : Row)
    (ht : findRow "TỔNG CỘNG TÀI SẢN" rows = some t)
    (h1 : t.namTruoc ≠ 0) (h2 : t.namSau ≠ 0) :
    ∃ out, process_financial_data rows = .ok out ∧
      enrichRow (shareDivisor t.namTruoc) (shareDivisor t.namSau) t ∈ out ∧
      (enrichRow (shareDivisor t.namTruoc) (shareDivisor t.namSau) t).tyTrongNamTruoc = 100 ∧
      (enrichRow (shareDivisor t.namTruoc) (shareDivisor t.namSau) t).tyTrongNamSau = 100 := by
  refine ⟨rows.map (enrichRow (shareDivisor t.namTruoc) (shareDivisor t.namSau)),
    ?_, ?_, ?_, ?_⟩
  · unfold process_financial_data
    rw [ht]
  · exact List.mem_map_of_mem _ (List.mem_of_find?_eq_some ht)
  · exact share_of_self t.namTruoc h1
  · exact share_of_self t.namSau h2

/-- Witness for `C4_total_assets_share_100` at a concrete table. -/
theorem C4_witness :
    ∃ out,
      process_financial_data [⟨"TỔNG CỘNG TÀI SẢN", 100, 200⟩, ⟨"TIỀN", 10, 20⟩] =
        .ok out ∧
      enrichRow (shareDivisor 100) (shareDivisor 200) ⟨"TỔNG CỘNG TÀI SẢN", 100, 200⟩ ∈ out ∧
      (enrichRow (shareDivisor 100) (shareDivisor 200)
        ⟨"TỔNG CỘNG TÀI SẢN", 100, 200⟩).tyTrongNamTruoc = 100 ∧
      (enrichRow (shareDivisor 100) (shareDivisor 200)
        ⟨"TỔNG CỘNG TÀI SẢN", 100, 200⟩).tyTrongNamSau = 100 :=
  C4_total_assets_share_100 [⟨"TỔNG CỘNG TÀI SẢN", 100, 200⟩, ⟨"TIỀN", 10, 20⟩]
    ⟨"TỔNG CỘNG TÀI SẢN", 100, 200⟩ (by decide) (by norm_num) (by norm_num)

/-- C6: every processed row with nonzero prior value has
`growthPct = (current − prior) / prior · 100` exactly — the epsilon
substitution of line 26 does not apply to such rows. -/
theorem C6_growth_exact (rows : List Row) (out : List EnrichedRow)
    (er : EnrichedRow) (hp : process_financial_data rows = .ok out)
    (hm : er ∈ out) (h : er.namTruoc ≠ 0) :
    er.tocDoTangTruong = (er.namSau - er.namTruoc) / er.namTruoc * 100 := by
  obtain ⟨t, hf, rfl⟩ := process_ok rows out hp
  obtain ⟨r, hr, rfl⟩ := List.mem_map.mp hm
  simp only [enrichRow] at h ⊢
  unfold growthDivisor
  rw [if_neg h]

/-- Witness for `C6_growth_exact` at a concrete table. -/
theorem C6_witness :
    (enrichRow (shareDivisor 100) (shareDivisor 200)
        ⟨"TỔNG CỘNG TÀI SẢN", 100, 200⟩).tocDoTangTruong =
      ((200:ℚ) - 100) / 100 * 100 :=
  C6_growth_exact [⟨"TỔNG CỘNG TÀI SẢN", 100, 200⟩]
    [enrichRow (shareDivisor 100) (shareDivisor 200) ⟨"TỔNG CỘNG TÀI SẢN", 100, 200⟩]
    (enrichRow (shareDivisor 100) (shareDivisor 200) ⟨"TỔNG CỘNG TÀI SẢN", 100, 200⟩)
    rfl (List.mem_cons_self _ _) (by norm_num [enrichRow])

/-- C7: every division of the ratio engine is guarded — for every processed
row each of the three derived columns is a quotient by a provably nonzero
divisor (a zero prior value or zero Total-Assets value having been replaced by
ε = 1e-9 before dividing), so the results are always defined. -/
theorem C7_divisions_guarded (rows : List Row) (out : List EnrichedRow)
    (er : EnrichedRow) (hp : process_financial_data rows = .ok out)
    (hm : er ∈ out) :
    ∃ dg dp dc : ℚ, dg ≠ 0 ∧ dp ≠ 0 ∧ dc ≠ 0 ∧
      er.tocDoTangTruong = (er.namSau - er.namTruoc) / dg * 100 ∧
      er.tyTrongNamTruoc = er.namTruoc / dp * 100 ∧
      er.tyTrongNamSau = er.namSau / dc * 100 := by
  obtain ⟨t, hf, rfl⟩ := process_ok rows out hp
  obtain ⟨r, hr, rfl⟩ := List.mem_map.mp hm
  exact ⟨growthDivisor r.namTruoc, shareDivisor t.namTruoc, shareDivisor t.namSau,
    growthDivisor_ne_zero _, shareDivisor_ne_zero _, shareDivisor_ne_zero _,
    rfl, rfl, rfl⟩

/-- Witness for `C7_divisions_guarded` at a concrete table whose values are all
zero (the case where every guard fires). -/
theorem C7_witness :
    ∃ dg dp dc : ℚ, dg ≠ 0 ∧ dp ≠ 0 ∧ dc ≠ 0 ∧
      (enrichRow (shareDivisor 0) (shareDivisor 0)
        ⟨"TỔNG CỘNG TÀI SẢN", 0, 0⟩).tocDoTangTruong =
        ((enrichRow (shareDivisor 0) (shareDivisor 0)
          ⟨"TỔNG CỘNG TÀI SẢN", 0, 0⟩).namSau -
         (enrichRow (shareDivisor 0) (shareDivisor 0)
          ⟨"TỔNG CỘNG TÀI SẢN", 0, 0⟩).namTruoc) / dg * 100 ∧
      (enrichRow (shareDivisor 0) (shareDivisor 0)
        ⟨"TỔNG CỘNG TÀI SẢN", 0, 0⟩).tyTrongNamTruoc =
        (enrichRow (shareDivisor 0) (shareDivisor 0)
          ⟨"TỔNG CỘNG TÀI SẢN", 0, 0⟩).namTruoc / dp * 100 ∧
      (enrichRow (shareDivisor 0) (shareDivisor 0)
        ⟨"TỔNG CỘNG TÀI SẢN", 0, 0⟩).tyTrongNamSau =
        (enrichRow (shareDivisor 0) (shareDivisor 0)
          ⟨"TỔNG CỘNG TÀI SẢN", 0, 0⟩).namSau / dc * 100 :=
  C7_divisions_guarded [⟨"TỔNG CỘNG TÀI SẢN", 0, 0⟩]
    [enrichRow (shareDivisor 0) (shareDivisor 0) ⟨"TỔNG CỘNG TÀI SẢN", 0, 0⟩]
    (enrichRow (shareDivisor 0) (shareDivisor 0) ⟨"TỔNG CỘNG TÀI SẢN", 0, 0⟩)
    rfl (List.mem_cons_self _ _)

/-- Two strings differing at some character position are distinct. -/
theorem ne_of_data_get {a b : String} {n : Nat} {c d : Char}
    (hc : a.data[n]? = some c) (hd : b.data[n]? = some d) (hcd : c ≠ d) :
    a ≠ b := by
  intro h
  rw [h] at hc
  rw [hc] at hd
  exact hcd (Option.some.inj hd)

/-- A character of the left part of a concatenation is a character of the
concatenation, at the same position. -/
theorem append_data_getElem_left (s t : String) (n : Nat) (c : Char)
    (h : s.data[n]? = some c) : (s ++ t).data[n]? = some c := by
  rw [String.data_append,
    List.getElem?_append_left (List.getElem?_eq_some_iff.mp h).1]
  exact h

/-- Every turn kept by the history-mapping loop has non-placeholder content. -/
theorem mapHistory_not_placeholder (ms : List Msg) (g : GMsg)
    (hg : g ∈ mapHistory ms) : isPlaceholder g.text = false := by
  induction ms with
  | nil => cases hg
  | cons m ms ih =>
      unfold mapHistory at hg
      split at hg
      · split at hg
        · exact ih hg
        · rcases List.mem_cons.mp hg with hEq | hTail
          · subst hEq
            rename_i hpl
            simp only [Bool.not_eq_true] at hpl
            exact hpl
          · exact ih hTail
      · exact ih hg

/-- The combined trailing user turn starts with the fixed instruction header,
whose first character is `'B'`. -/
theorem combined_head (ctx prompt : String) :
    (context_header ctx ++ prompt).data[0]? = some 'B' := by
  apply append_data_getElem_left
  unfold context_header
  apply append_data_getElem_left
  apply append_data_getElem_left
  decide

/-- C5: no turn of any outbound `contents` list has one of the two reserved
bootstrap placeholder strings as its content, whatever the session history
holds — history turns starting with either placeholder are filtered at
line 103, and the combined trailing user turn always starts with the
instruction header instead. -/
theorem C5_no_placeholder_outbound (messages : List Msg) (prompt ctx : String)
    (g : GMsg) (hg : g ∈ get_chat_response_contents messages prompt ctx) :
    g.text ≠ placeholderUpload ∧ g.text ≠ placeholderUploaded := by
  unfold get_chat_response_contents at hg
  rcases List.mem_append.mp hg with hh | hlast
  · have hpl := mapHistory_not_placeholder _ _ hh
    constructor
    · intro he
      rw [he] at hpl
      have htrue : isPlaceholder placeholderUpload = true := by decide
      rw [htrue] at hpl
      cases hpl
    · intro he
      rw [he] at hpl
      have htrue : isPlaceholder placeholderUploaded = true := by decide
      rw [htrue] at hpl
      cases hpl
  · have hg2 : g = ⟨"user", context_header ctx ++ prompt⟩ := by
      simpa using hlast
    subst hg2
    have hV : placeholderUpload.data[0]? = some 'V' := by decide
    have hD : placeholderUploaded.data[0]? = some 'D' := by decide
    exact ⟨ne_of_data_get (combined_head ctx prompt) hV (by decide),
      ne_of_data_get (combined_head ctx prompt) hD (by decide)⟩

/-- Witness for `C5_no_placeholder_outbound` at a concrete history and turn. -/
theorem C5_witness :
    ("a" : String) ≠ placeholderUpload ∧ ("a" : String) ≠ placeholderUploaded :=
  C5_no_placeholder_outbound [⟨"user", "a"⟩, ⟨"user", "c"⟩] "c" "x" ⟨"user", "a"⟩
    (by decide)

/-- C8: both AI-call functions translate every raised exception into a
diagnostic string instead of propagating it (they are total `String`-valued
functions of the call outcome): an `APIError` yields the API diagnostic, any
other exception yields the catch-all diagnostic, and within each function the
two diagnostics are distinct whatever the exception texts are. -/
theorem C8_ai_errors_become_strings (t e r : String) :
    get_ai_analysis (.success t) = t ∧
    get_ai_analysis (.apiError e) =
      "Lỗi gọi Gemini API: Vui lòng kiểm tra Khóa API hoặc giới hạn sử dụng. Chi tiết lỗi: " ++ e ∧
    get_ai_analysis (.otherError r) = "Đã xảy ra lỗi không xác định: " ++ r ∧
    get_ai_analysis (.apiError e) ≠ get_ai_analysis (.otherError r) ∧
    get_chat_response (.success t) = t ∧
    get_chat_response (.apiError e) =
      "Lỗi API: Vui lòng kiểm tra Khóa API hoặc vai trò (roles) trong lịch sử chat. Chi tiết lỗi: " ++ e ∧
    get_chat_response (.otherError r) = "Lỗi không xác định khi chat: " ++ r ∧
    get_chat_response (.apiError e) ≠ get_chat_response (.otherError r) := by
  refine ⟨rfl, rfl, rfl, ?_, rfl, rfl, rfl, ?_⟩
  · exact ne_of_data_get
      (append_data_getElem_left _ _ 0 'L' (by decide))
      (append_data_getElem_left _ _ 0 'Đ' (by decide)) (by decide)
  · exact ne_of_data_get
      (append_data_getElem_left _ _ 4 'A' (by decide))
      (append_data_getElem_left _ _ 4 'k' (by decide)) (by decide)

/-- C9: duplicate Total-Assets labels are not rejected — whenever some row
matches (the lookup returning the FIRST match in source order, line 30's
filter plus line 36's `.iloc[0]`), the computation succeeds and every row's
share denominators come from that first matching row; later matching rows play
no role in the result. -/
theorem C9_first_match_denominators (rows : List Row) (t : Row)
    (ht : findRow "TỔNG CỘNG TÀI SẢN" rows = some t) :
    process_financial_data rows =
      .ok (rows.map (enrichRow (shareDivisor t.namTruoc) (shareDivisor t.namSau))) := by
  unfold process_financial_data
  rw [ht]

/-- Witness for `C9_first_match_denominators`: two rows match the Total-Assets
label; the denominators are the first row's 100 and 200, and the second
matching row's values 7 and 9 are ignored. -/
theorem C9_witness :
    process_financial_data
        [⟨"TỔNG CỘNG TÀI SẢN", 100, 200⟩, ⟨"TỔNG CỘNG TÀI SẢN - kiểm tra", 7, 9⟩] =
      .ok ([⟨"TỔNG CỘNG TÀI SẢN", 100, 200⟩,
            ⟨"TỔNG CỘNG TÀI SẢN - kiểm tra", 7, 9⟩].map
        (enrichRow (shareDivisor 100) (shareDivisor 200))) :=
  C9_first_match_denominators
    [⟨"TỔNG CỘNG TÀI SẢN", 100, 200⟩, ⟨"TỔNG CỘNG TÀI SẢN - kiểm tra", 7, 9⟩]
    ⟨"TỔNG CỘNG TÀI SẢN", 100, 200⟩ (by decide)

/-- C10: the placeholder exclusion is a character-level leading match, not an
equality match — a history turn whose content merely STARTS with either
reserved placeholder text is dropped from the outbound list (even a genuine
question extending that text), while a turn that does not start with either
text is kept even when the placeholder occurs later inside it. -/
theorem C10_placeholder_drop_is_lead_match (s t ctx p : String)
    (hs : startsWithCh s placeholderLead1 = true ∨
      startsWithCh s placeholderLead2 = true)
    (ht1 : startsWithCh t placeholderLead1 = false)
    (ht2 : startsWithCh t placeholderLead2 = false) :
    get_chat_response_contents [⟨"user", s⟩, ⟨"user", t⟩, ⟨"user", p⟩] p ctx =
      [⟨"user", t⟩, ⟨"user", context_header ctx ++ p⟩] := by
  have hpl : isPlaceholder s = true := by
    unfold isPlaceholder
    rcases hs with h | h <;> simp [h]
  have hplt : isPlaceholder t = false := by
    unfold isPlaceholder
    rw [ht1, ht2]
    rfl
  simp [get_chat_response_contents, mapHistory, roleOf, hpl, hplt, List.dropLast]

/-- Witness for `C10_placeholder_drop_is_lead_match`: the dropped turn is a
genuine user question that merely begins with the reserved text (it does not
equal either placeholder), and the kept turn contains the full placeholder
text away from position 0. -/
theorem C10_witness :
    get_chat_response_contents
        [⟨"user", placeholderLead1 ++ " của tôi bị hỏng, hãy phân tích giúp"⟩,
         ⟨"user", "Xin nhắc lại câu: " ++ placeholderUpload⟩,
         ⟨"user", "tiếp tục"⟩] "tiếp tục" "bảng" =
      [⟨"user", "Xin nhắc lại câu: " ++ placeholderUpload⟩,
       ⟨"user", context_header "bảng" ++ "tiếp tục"⟩] :=
  C10_placeholder_drop_is_lead_match
    (placeholderLead1 ++ " của tôi bị hỏng, hãy phân tích giúp")
    ("Xin nhắc lại câu: " ++ placeholderUpload) "bảng" "tiếp tục"
    (Or.inl (by decide)) (by decide) (by decide)
